import Mathlib

/-!
Verification of the nvlatency specification against a shallow embedding.

The repository ships only the public C header `src/include/nvlatency.h`
(declarations and doc comments); the implementation files are not present
under `src/`. Every operation below is therefore modelled from the spec
(sections 3, 4, 6, 7 of `spec.md`), faithfully to its words, and the claims
are settled against that model. Machine integers (`uint64_t` timestamps and
counters) are modelled as `Nat`; the spec requires all derived timing fields
to be clamped at 0, never wrapped, so no modular arithmetic arises in the
model itself — boundedness below `2 ^ 64` is proved where the claims ask
for it. The `float` metrics fields are modelled as `ℚ` (the spec gives
exact formulas; the examples it checks are exactly representable).
-/

set_option maxRecDepth 100000

namespace Nvlat

/-- Modelled from the spec: result codes of `nvlat_result_t`
(header lines 41–48); the implementation behind them is missing from
`src/`. -/
inductive nvlat_result_t where
  | NVLAT_SUCCESS
  | NVLAT_ERROR_NOT_SUPPORTED
  | NVLAT_ERROR_INVALID_HANDLE
  | NVLAT_ERROR_OUT_OF_MEMORY
  | NVLAT_ERROR_UNKNOWN
deriving DecidableEq, Repr

export nvlat_result_t (NVLAT_SUCCESS NVLAT_ERROR_NOT_SUPPORTED
  NVLAT_ERROR_INVALID_HANDLE NVLAT_ERROR_OUT_OF_MEMORY NVLAT_ERROR_UNKNOWN)

/-- Modelled from the spec: the public Reflex mode enumeration
`nvlat_reflex_mode_t` (header lines 50–55). It has exactly the three
values Off/On/Boost; the spec's `Unsupported` latency state is a separate
per-context flag, not a value of this type. -/
inductive nvlat_reflex_mode_t where
  | NVLAT_REFLEX_OFF
  | NVLAT_REFLEX_ON
  | NVLAT_REFLEX_BOOST
deriving DecidableEq, Repr

export nvlat_reflex_mode_t (NVLAT_REFLEX_OFF NVLAT_REFLEX_ON NVLAT_REFLEX_BOOST)

/-- Modelled from the spec: the derived `nvlat_frame_timings_t` record
(header lines 57–65); `uint64_t` fields as `Nat`. -/
structure nvlat_frame_timings_t where
  frame_id : Nat
  simulation_us : Nat
  render_submit_us : Nat
  present_us : Nat
  total_us : Nat
  input_latency_us : Nat
deriving DecidableEq, Repr

/-- Modelled from the spec: the all-zero timings record that `end_frame`
returns when called while Idle (spec section 4.1). -/
def zeroTimings : nvlat_frame_timings_t :=
  { frame_id := 0, simulation_us := 0, render_submit_us := 0
    present_us := 0, total_us := 0, input_latency_us := 0 }

/-- Modelled from the spec: the `FrameState` of the Frame Phase Tracker for
one Active frame (spec section 3): the frame id, the begin timestamp, and
the optional phase timestamps. The implementation is missing from `src/`. -/
structure FrameState where
  frame_id : Nat
  begin_ts : Nat
  input_sample : Option Nat
  sim_end : Option Nat
  submit_start : Option Nat
  submit_end : Option Nat
  present_start : Option Nat
  present_end : Option Nat
deriving DecidableEq, Repr

/-- Modelled from the spec: a freshly begun frame — `begin_frame` records
the begin timestamp and leaves every phase slot unset (spec section 4.1). -/
def freshFrame (id now : Nat) : FrameState :=
  { frame_id := id, begin_ts := now, input_sample := none, sim_end := none
    submit_start := none, submit_end := none
    present_start := none, present_end := none }

/-- Modelled from the spec: the aggregated metrics record `nvlat_metrics_t`
(header lines 67–74); the two `float` fields are modelled as `ℚ`. -/
structure nvlat_metrics_t where
  total_frames : Nat
  avg_frame_time_us : Nat
  avg_fps : ℚ
  fps_1_low : ℚ
  avg_input_latency_us : Nat
deriving DecidableEq, Repr

/-- Modelled from the spec: the context state (spec sections 3 and 4): one
permanent supported flag from the capability probe, the cached latency
mode, the frame-id counter, the optional Active frame, and the metrics
window with its unbounded total-frame counter. The implementation is
missing from `src/`. -/
structure Context where
  supported : Bool
  mode : nvlat_reflex_mode_t
  next_frame_id : Nat
  current : Option FrameState
  window : List nvlat_frame_timings_t
  capacity : Nat
  total_frames : Nat
deriving DecidableEq, Repr

/-- Modelled from the spec: the context produced by `nvlat_init` (spec
section 6): supported flag from the probe result, cached mode defaulting
to Off, frame counter at 0, Idle, empty metrics window of fixed capacity
1000. -/
def initialContext (probeOk : Bool) : Context :=
  { supported := probeOk, mode := NVLAT_REFLEX_OFF, next_frame_id := 0
    current := none, window := [], capacity := 1000, total_frames := 0 }

/-- Modelled from the spec: `nvlat_init` (header lines 80–92). The vendor
pacing probe is modelled as an oracle list of probe outcomes of which init
consumes exactly one; `allocOk` models allocation success. On probe failure
the context is still returned, in the Unsupported state; only allocation
failure makes init itself fail (spec section 6). -/
def nvlat_init (probeResults : List Bool) (allocOk : Bool) :
    Option Context × List Bool :=
  match probeResults with
  | [] => (none, [])
  | p :: rest => ((if allocOk then some (initialContext p) else none), rest)

/-- Modelled from the spec: derivation of the timings record at frame end
(spec section 4.1). Every subtraction is `Nat` truncated subtraction,
which is exactly the spec's clamp-at-0 rule; a field whose optional
endpoint is unset is 0; `input_latency_us` uses `present_end` if set,
else `now`. -/
def mkTimings (fs : FrameState) (now : Nat) : nvlat_frame_timings_t :=
  { frame_id := fs.frame_id
    simulation_us :=
      match fs.sim_end with
      | none => 0
      | some e => e - fs.begin_ts
    render_submit_us :=
      match fs.submit_start, fs.submit_end with
      | some s, some e => e - s
      | _, _ => 0
    present_us :=
      match fs.present_start, fs.present_end with
      | some s, some e => e - s
      | _, _ => 0
    total_us := now - fs.begin_ts
    input_latency_us :=
      match fs.input_sample with
      | none => 0
      | some i => fs.present_end.getD now - i }

/-- Modelled from the spec: the Metrics Aggregator push (spec section 4.2):
insert into the circular buffer, evicting oldest-first when full, and
increment the unbounded `total_frames` counter unconditionally. -/
def pushTimings (c : Context) (t : nvlat_frame_timings_t) : Context :=
  let w := c.window ++ [t]
  { c with window := w.drop (w.length - c.capacity)
           total_frames := c.total_frames + 1 }

/-- Modelled from the spec: `nvlat_end_frame` (header lines 184–190, spec
section 4.1): Active→Idle, derive the timings, push them into the
aggregator and return them; a no-op returning a zeroed record while
Idle. -/
def nvlat_end_frame (c : Context) (now : Nat) :
    nvlat_frame_timings_t × Context :=
  match c.current with
  | none => (zeroTimings, c)
  | some fs =>
    let t := mkTimings fs now
    (t, pushTimings { c with current := none } t)

/-- Modelled from the spec: `nvlat_begin_frame` (header lines 134–140, spec
section 4.1): implicitly end any Active frame, assign the next frame id
(0 for the very first frame, previous + 1 afterwards), record the begin
timestamp and return the new id. -/
def nvlat_begin_frame (c : Context) (now : Nat) : Nat × Context :=
  let c1 := (nvlat_end_frame c now).2
  let id := c1.next_frame_id
  (id, { c1 with current := some (freshFrame id now)
                 next_frame_id := id + 1 })

/-- Modelled from the spec: shared shape of the seven marking calls — apply
an update to the Active frame, no-op while Idle (spec section 4.1). -/
def markWith (c : Context) (f : FrameState → FrameState) : Context :=
  match c.current with
  | none => c
  | some fs => { c with current := some (f fs) }

/-- Modelled from the spec: first-call-wins slot update for the discrete
phase-edge marks (spec section 4.1). -/
def setIfUnset (slot : Option Nat) (now : Nat) : Option Nat :=
  match slot with
  | none => some now
  | some t => some t

/-- Modelled from the spec: `nvlat_mark_input_sample` (header lines
142–147): latest call wins while Active. -/
def nvlat_mark_input_sample (c : Context) (now : Nat) : Context :=
  markWith c fun fs => { fs with input_sample := some now }

/-- Modelled from the spec: `nvlat_mark_simulation_end` (header lines
149–154): first call wins while Active. -/
def nvlat_mark_simulation_end (c : Context) (now : Nat) : Context :=
  markWith c fun fs => { fs with sim_end := setIfUnset fs.sim_end now }

/-- Modelled from the spec: `nvlat_mark_render_submit_start` (header lines
156–161): first call wins while Active. -/
def nvlat_mark_render_submit_start (c : Context) (now : Nat) : Context :=
  markWith c fun fs =>
    { fs with submit_start := setIfUnset fs.submit_start now }

/-- Modelled from the spec: `nvlat_mark_render_submit_end` (header lines
163–168): first call wins while Active. -/
def nvlat_mark_render_submit_end (c : Context) (now : Nat) : Context :=
  markWith c fun fs => { fs with submit_end := setIfUnset fs.submit_end now }

/-- Modelled from the spec: `nvlat_mark_present_start` (header lines
170–175): first call wins while Active. -/
def nvlat_mark_present_start (c : Context) (now : Nat) : Context :=
  markWith c fun fs =>
    { fs with present_start := setIfUnset fs.present_start now }

/-- Modelled from the spec: `nvlat_mark_present_end` (header lines
177–182): first call wins while Active. -/
def nvlat_mark_present_end (c : Context) (now : Nat) : Context :=
  markWith c fun fs =>
    { fs with present_end := setIfUnset fs.present_end now }

/-- Modelled from the spec: `nvlat_is_supported` (header lines 101–107):
pure read of whether the context is permanently Unsupported (spec
section 4.3). -/
def nvlat_is_supported (c : Context) : Bool :=
  c.supported

/-- Modelled from the spec: `nvlat_get_reflex_mode` (header lines 122–128):
pure read of the cached mode, never invoking the vendor capability (spec
section 4.3). -/
def nvlat_get_reflex_mode (c : Context) : nvlat_reflex_mode_t :=
  c.mode

/-- Modelled from the spec: `nvlat_set_reflex_mode` (header lines 113–120,
spec section 4.3). The vendor control entry point's outcome is modelled by
the `vendorOk` oracle. Unsupported contexts fail with NotSupported and
stay unchanged; on vendor success the cached mode becomes the requested
one; on vendor failure the cached mode keeps its prior value and the call
fails with the opaque Unknown error. -/
def nvlat_set_reflex_mode (c : Context) (m : nvlat_reflex_mode_t)
    (vendorOk : Bool) : nvlat_result_t × Context :=
  if c.supported = false then (NVLAT_ERROR_NOT_SUPPORTED, c)
  else if vendorOk then (NVLAT_SUCCESS, { c with mode := m })
  else (NVLAT_ERROR_UNKNOWN, c)

/-- Modelled from the spec: blocking on the caller's counting wait
primitive until it reaches at least the target value (spec glossary and
section 4.4). The primitive is its monotone counter value; waiting returns
the value it has reached on wake-up. -/
def waitFor (sem target : Nat) : Nat :=
  max sem target

/-- Modelled from the spec: `nvlat_sleep` (header lines 192–200, spec
section 4.4). On an Unsupported context or in Off mode it degrades to a
direct wait; otherwise it delegates to the vendor capability (outcome
modelled by the `vendorOk` oracle) before satisfying the wait. On every
return the wait on the primitive has been satisfied. Returns the result
code and the value the primitive has reached. -/
def nvlat_sleep (c : Context) (sem target : Nat) (vendorOk : Bool) :
    nvlat_result_t × Nat :=
  if c.supported = false ∨ c.mode = NVLAT_REFLEX_OFF then
    (NVLAT_SUCCESS, waitFor sem target)
  else if vendorOk then (NVLAT_SUCCESS, waitFor sem target)
  else (NVLAT_ERROR_UNKNOWN, waitFor sem target)

/-- Modelled from the spec: descending insertion of one value into an
already descending list, for the aggregator's sort of retained
`total_us` values (spec section 4.2). -/
def insertDesc (x : Nat) : List Nat → List Nat
  | [] => [x]
  | y :: ys => if y ≤ x then x :: y :: ys else y :: insertDesc x ys

/-- Modelled from the spec: sort a list of `total_us` values in descending
order (spec section 4.2). -/
def sortDesc : List Nat → List Nat
  | [] => []
  | x :: xs => insertDesc x (sortDesc xs)

/-- Modelled from the spec: convert an average frame time in microseconds
to frames per second — 1,000,000 divided by the average, 0 if the average
is 0 (spec section 4.2). -/
def fpsOf (avgUs : ℚ) : ℚ :=
  if avgUs = 0 then 0 else 1000000 / avgUs

/-- Modelled from the spec: the worst-1% sample count
`max(1, ceil(0.01 × count))` (spec sections 4.2 and 9). -/
def onePercentCount (n : Nat) : Nat :=
  max 1 ((n + 99) / 100)

/-- Modelled from the spec: the retained `total_us` values of the metrics
window (spec section 4.2). -/
def windowTotals (c : Context) : List Nat :=
  c.window.map (·.total_us)

/-- Modelled from the spec: the integer mean of the retained `total_us`
values — `avg_frame_time_us` is a `uint64_t` field (spec section 4.2). -/
def avgTotal (c : Context) : Nat :=
  (windowTotals c).sum / (windowTotals c).length

/-- Modelled from the spec: how many worst entries the 1%-low metric keeps
for this window (spec section 4.2). -/
def worstCount (c : Context) : Nat :=
  onePercentCount (windowTotals c).length

/-- Modelled from the spec: the summed `total_us` of the worst
`worstCount` retained entries after the descending sort (spec
section 4.2). -/
def worstSum (c : Context) : Nat :=
  ((sortDesc (windowTotals c)).take (worstCount c)).sum

/-- Modelled from the spec: the arithmetic mean `total_us` of the worst-1%
subset, as an exact rational (spec section 4.2). -/
def worstMeanQ (c : Context) : ℚ :=
  (worstSum c : ℚ) / (worstCount c : ℚ)

/-- Modelled from the spec: the retained `input_latency_us` values that are
nonzero — the frames that actually recorded an input sample (spec
section 4.2). -/
def inputSamples (c : Context) : List Nat :=
  (c.window.map (·.input_latency_us)).filter (· ≠ 0)

/-- Modelled from the spec: `nvlat_get_metrics` (header lines 206–212, spec
section 4.2): a snapshot over the currently retained window entries.
`avg_frame_time_us` is the integer mean of `total_us`; `avg_fps` derives
from it; `fps_1_low` derives from the rational mean of the worst
`worstCount` retained `total_us` values after a descending sort;
`avg_input_latency_us` is the integer mean over entries with nonzero
`input_latency_us`. All aggregate fields are 0 on an empty window;
`total_frames` is the unbounded counter. -/
def nvlat_get_metrics (c : Context) : nvlat_metrics_t :=
  if (windowTotals c).length = 0 then
    { total_frames := c.total_frames, avg_frame_time_us := 0
      avg_fps := 0, fps_1_low := 0, avg_input_latency_us := 0 }
  else
    { total_frames := c.total_frames
      avg_frame_time_us := avgTotal c
      avg_fps := fpsOf (avgTotal c : ℚ)
      fps_1_low := fpsOf (worstMeanQ c)
      avg_input_latency_us :=
        if (inputSamples c).length = 0 then 0
        else (inputSamples c).sum / (inputSamples c).length }

/-- Modelled from the spec: `nvlat_get_frame_id` (header lines 214–220):
pure read of the last-issued frame id (spec section 6). -/
def nvlat_get_frame_id (c : Context) : Nat :=
  c.next_frame_id - 1

/-- Modelled from the spec: `nvlat_reset_metrics` (header lines 222–227,
spec section 4.2): clears the buffer and zeroes `total_frames`, leaving
the Frame Phase Tracker untouched. -/
def nvlat_reset_metrics (c : Context) : Context :=
  { c with window := [], total_frames := 0 }

/-- Modelled from the spec: one API call of the per-context interface, with
each call's timestamp and any vendor outcome it depends on made explicit,
so that a trace of calls is a list of events (spec sections 4 and 6). -/
inductive Event where
  | ev_begin_frame (now : Nat)
  | ev_mark_input_sample (now : Nat)
  | ev_mark_simulation_end (now : Nat)
  | ev_mark_render_submit_start (now : Nat)
  | ev_mark_render_submit_end (now : Nat)
  | ev_mark_present_start (now : Nat)
  | ev_mark_present_end (now : Nat)
  | ev_end_frame (now : Nat)
  | ev_set_reflex_mode (m : nvlat_reflex_mode_t) (vendorOk : Bool)
  | ev_sleep (sem target : Nat) (vendorOk : Bool)
  | ev_get_metrics
  | ev_get_frame_id
  | ev_reset_metrics
deriving DecidableEq, Repr

/-- Modelled from the spec: the state transition of one API call on a
context (pure reads leave the context unchanged). -/
def step (c : Context) : Event → Context
  | .ev_begin_frame now => (nvlat_begin_frame c now).2
  | .ev_mark_input_sample now => nvlat_mark_input_sample c now
  | .ev_mark_simulation_end now => nvlat_mark_simulation_end c now
  | .ev_mark_render_submit_start now => nvlat_mark_render_submit_start c now
  | .ev_mark_render_submit_end now => nvlat_mark_render_submit_end c now
  | .ev_mark_present_start now => nvlat_mark_present_start c now
  | .ev_mark_present_end now => nvlat_mark_present_end c now
  | .ev_end_frame now => (nvlat_end_frame c now).2
  | .ev_set_reflex_mode m vendorOk => (nvlat_set_reflex_mode c m vendorOk).2
  | .ev_sleep _ _ _ => c
  | .ev_get_metrics => c
  | .ev_get_frame_id => c
  | .ev_reset_metrics => nvlat_reset_metrics c

/-- Modelled from the spec: run a trace of API calls on a context. -/
def run (c : Context) (es : List Event) : Context :=
  es.foldl step c

/-- Modelled from the spec: the frame ids returned by the `begin_frame`
calls of a trace, in order. -/
def beginOutputs (c : Context) : List Event → List Nat
  | [] => []
  | e :: es =>
    match e with
    | .ev_begin_frame now =>
      (nvlat_begin_frame c now).1 :: beginOutputs (step c e) es
    | _ => beginOutputs (step c e) es

/-- Modelled from the spec: how many `begin_frame` calls a trace makes. -/
def countBegins : List Event → Nat
  | [] => 0
  | .ev_begin_frame _ :: es => countBegins es + 1
  | _ :: es => countBegins es

/-- Modelled from the spec: lift a per-context state update to the opaque
handle level, where an invalid or destroyed handle is `none`: void
operations silently no-op on an invalid handle (spec section 7). -/
def onHandle (h : Option Context) (f : Context → Context) : Option Context :=
  match h with
  | none => none
  | some c => some (f c)

/-- Modelled from the spec: `nvlat_mark_input_sample` at handle level. -/
def h_mark_input_sample (h : Option Context) (now : Nat) : Option Context :=
  onHandle h (nvlat_mark_input_sample · now)

/-- Modelled from the spec: `nvlat_mark_simulation_end` at handle level. -/
def h_mark_simulation_end (h : Option Context) (now : Nat) : Option Context :=
  onHandle h (nvlat_mark_simulation_end · now)

/-- Modelled from the spec: `nvlat_mark_render_submit_start` at handle
level. -/
def h_mark_render_submit_start (h : Option Context) (now : Nat) :
    Option Context :=
  onHandle h (nvlat_mark_render_submit_start · now)

/-- Modelled from the spec: `nvlat_mark_render_submit_end` at handle
level. -/
def h_mark_render_submit_end (h : Option Context) (now : Nat) :
    Option Context :=
  onHandle h (nvlat_mark_render_submit_end · now)

/-- Modelled from the spec: `nvlat_mark_present_start` at handle level. -/
def h_mark_present_start (h : Option Context) (now : Nat) : Option Context :=
  onHandle h (nvlat_mark_present_start · now)

/-- Modelled from the spec: `nvlat_mark_present_end` at handle level. -/
def h_mark_present_end (h : Option Context) (now : Nat) : Option Context :=
  onHandle h (nvlat_mark_present_end · now)

/-- Modelled from the spec: `nvlat_begin_frame` at handle level (void-like:
its returned id is 0 on an invalid handle, and the call no-ops). -/
def h_begin_frame (h : Option Context) (now : Nat) : Nat × Option Context :=
  match h with
  | none => (0, none)
  | some c =>
    let r := nvlat_begin_frame c now
    (r.1, some r.2)

/-- Modelled from the spec: `nvlat_end_frame` at handle level — on an
invalid handle it silently no-ops and writes nothing into `out`. -/
def h_end_frame (h : Option Context) (now : Nat) :
    Option nvlat_frame_timings_t × Option Context :=
  match h with
  | none => (none, none)
  | some c =>
    let r := nvlat_end_frame c now
    (some r.1, some r.2)

/-- Modelled from the spec: `nvlat_get_metrics` at handle level — on an
invalid handle it silently no-ops and writes nothing into `out`. -/
def h_get_metrics (h : Option Context) :
    Option nvlat_metrics_t × Option Context :=
  match h with
  | none => (none, none)
  | some c => (some (nvlat_get_metrics c), some c)

/-- Modelled from the spec: `nvlat_reset_metrics` at handle level. -/
def h_reset_metrics (h : Option Context) : Option Context :=
  onHandle h nvlat_reset_metrics

/-- Modelled from the spec: `nvlat_destroy` at handle level — releases the
context; a no-op on an invalid handle (spec sections 6 and 7). -/
def h_destroy (_ : Option Context) : Option Context :=
  none

/-- Modelled from the spec: `nvlat_set_reflex_mode` at handle level — an
invalid handle yields the InvalidHandle error and no state change (spec
section 7). -/
def h_set_reflex_mode (h : Option Context) (m : nvlat_reflex_mode_t)
    (vendorOk : Bool) : nvlat_result_t × Option Context :=
  match h with
  | none => (NVLAT_ERROR_INVALID_HANDLE, none)
  | some c =>
    let r := nvlat_set_reflex_mode c m vendorOk
    (r.1, some r.2)

/-- Modelled from the spec: `nvlat_sleep` at handle level — an invalid
handle yields the InvalidHandle error and the primitive is left as the
caller supplied it. -/
def h_sleep (h : Option Context) (sem target : Nat) (vendorOk : Bool) :
    nvlat_result_t × Nat :=
  match h with
  | none => (NVLAT_ERROR_INVALID_HANDLE, sem)
  | some c => nvlat_sleep c sem target vendorOk

/-- Modelled from the spec: one of the six phase-marking calls between
`begin_frame` and `end_frame`, with its timestamp (spec section 4.1); a
`List Mark` is an arbitrary order and multiplicity of marking calls. -/
inductive Mark where
  | input_sample (now : Nat)
  | simulation_end (now : Nat)
  | render_submit_start (now : Nat)
  | render_submit_end (now : Nat)
  | present_start (now : Nat)
  | present_end (now : Nat)
deriving DecidableEq, Repr

/-- Modelled from the spec: apply one marking call to the context. -/
def applyMark (c : Context) : Mark → Context
  | .input_sample now => nvlat_mark_input_sample c now
  | .simulation_end now => nvlat_mark_simulation_end c now
  | .render_submit_start now => nvlat_mark_render_submit_start c now
  | .render_submit_end now => nvlat_mark_render_submit_end c now
  | .present_start now => nvlat_mark_present_start c now
  | .present_end now => nvlat_mark_present_end c now

/-- Modelled from the spec: apply a sequence of marking calls in order. -/
def applyMarks (c : Context) (ms : List Mark) : Context :=
  ms.foldl applyMark c

/-- Modelled from the spec: the effect of one marking call on the Active
frame's state — latest-wins for the input sample, first-wins for the
discrete phase edges (spec section 4.1). -/
def markFold (fs : FrameState) : Mark → FrameState
  | .input_sample now => { fs with input_sample := some now }
  | .simulation_end now => { fs with sim_end := setIfUnset fs.sim_end now }
  | .render_submit_start now =>
    { fs with submit_start := setIfUnset fs.submit_start now }
  | .render_submit_end now =>
    { fs with submit_end := setIfUnset fs.submit_end now }
  | .present_start now =>
    { fs with present_start := setIfUnset fs.present_start now }
  | .present_end now =>
    { fs with present_end := setIfUnset fs.present_end now }

theorem markWith_current (c : Context) (f : FrameState → FrameState)
    (fs : FrameState) (h : c.current = some fs) :
    (markWith c f).current = some (f fs) := by
  simp [markWith, h]

theorem markWith_supported (c : Context) (f : FrameState → FrameState) :
    (markWith c f).supported = c.supported := by
  cases h : c.current <;> simp [markWith, h]

theorem markWith_mode (c : Context) (f : FrameState → FrameState) :
    (markWith c f).mode = c.mode := by
  cases h : c.current <;> simp [markWith, h]

theorem markWith_next_frame_id (c : Context) (f : FrameState → FrameState) :
    (markWith c f).next_frame_id = c.next_frame_id := by
  cases h : c.current <;> simp [markWith, h]

theorem applyMark_current (c : Context) (fs : FrameState) (m : Mark)
    (h : c.current = some fs) :
    (applyMark c m).current = some (markFold fs m) := by
  cases m <;>
    simp [applyMark, markFold, nvlat_mark_input_sample,
      nvlat_mark_simulation_end, nvlat_mark_render_submit_start,
      nvlat_mark_render_submit_end, nvlat_mark_present_start,
      nvlat_mark_present_end, markWith, h]

theorem applyMarks_current (ms : List Mark) :
    ∀ (c : Context) (fs : FrameState), c.current = some fs →
      (applyMarks c ms).current = some (ms.foldl markFold fs) := by
  induction ms with
  | nil => intro c fs h; simpa [applyMarks] using h
  | cons m ms ih =>
    intro c fs h
    have h1 := applyMark_current c fs m h
    simpa [applyMarks, List.foldl_cons] using ih (applyMark c m) (markFold fs m) h1

theorem pushTimings_supported (c : Context) (t : nvlat_frame_timings_t) :
    (pushTimings c t).supported = c.supported := by
  simp [pushTimings]

theorem end_frame_fst (c : Context) (now : Nat) (fs : FrameState)
    (h : c.current = some fs) :
    (nvlat_end_frame c now).1 = mkTimings fs now := by
  simp [nvlat_end_frame, h]

theorem end_frame_next_frame_id (c : Context) (now : Nat) :
    (nvlat_end_frame c now).2.next_frame_id = c.next_frame_id := by
  cases h : c.current <;> simp [nvlat_end_frame, h, pushTimings]

theorem end_frame_supported (c : Context) (now : Nat) :
    (nvlat_end_frame c now).2.supported = c.supported := by
  cases h : c.current <;> simp [nvlat_end_frame, h, pushTimings]

theorem end_frame_mode (c : Context) (now : Nat) :
    (nvlat_end_frame c now).2.mode = c.mode := by
  cases h : c.current <;> simp [nvlat_end_frame, h, pushTimings]

theorem begin_frame_fst (c : Context) (now : Nat) :
    (nvlat_begin_frame c now).1 = c.next_frame_id := by
  simp [nvlat_begin_frame, end_frame_next_frame_id]

theorem begin_frame_next_frame_id (c : Context) (now : Nat) :
    (nvlat_begin_frame c now).2.next_frame_id = c.next_frame_id + 1 := by
  simp [nvlat_begin_frame, end_frame_next_frame_id]

theorem begin_frame_current (c : Context) (now : Nat) :
    (nvlat_begin_frame c now).2.current =
      some (freshFrame c.next_frame_id now) := by
  simp [nvlat_begin_frame, end_frame_next_frame_id]

theorem begin_frame_supported (c : Context) (now : Nat) :
    (nvlat_begin_frame c now).2.supported = c.supported := by
  simp [nvlat_begin_frame, end_frame_supported]

theorem begin_frame_mode (c : Context) (now : Nat) :
    (nvlat_begin_frame c now).2.mode = c.mode := by
  simp [nvlat_begin_frame, end_frame_mode]

theorem set_reflex_mode_supported (c : Context) (m : nvlat_reflex_mode_t)
    (v : Bool) : (nvlat_set_reflex_mode c m v).2.supported = c.supported := by
  cases hs : c.supported <;> cases v <;> simp [nvlat_set_reflex_mode, hs]

theorem set_reflex_mode_next_frame_id (c : Context) (m : nvlat_reflex_mode_t)
    (v : Bool) :
    (nvlat_set_reflex_mode c m v).2.next_frame_id = c.next_frame_id := by
  cases hs : c.supported <;> cases v <;> simp [nvlat_set_reflex_mode, hs]

theorem set_reflex_mode_unsupported (c : Context) (m : nvlat_reflex_mode_t)
    (v : Bool) (h : c.supported = false) :
    nvlat_set_reflex_mode c m v = (NVLAT_ERROR_NOT_SUPPORTED, c) := by
  simp [nvlat_set_reflex_mode, h]

theorem step_supported (c : Context) (e : Event) :
    (step c e).supported = c.supported := by
  cases e <;>
    simp [step, begin_frame_supported, end_frame_supported,
      set_reflex_mode_supported, nvlat_mark_input_sample,
      nvlat_mark_simulation_end, nvlat_mark_render_submit_start,
      nvlat_mark_render_submit_end, nvlat_mark_present_start,
      nvlat_mark_present_end, markWith_supported, nvlat_reset_metrics]

theorem step_next_frame_id (c : Context) (e : Event) :
    (step c e).next_frame_id =
      c.next_frame_id +
        (match e with | .ev_begin_frame _ => 1 | _ => 0) := by
  cases e <;>
    simp [step, begin_frame_next_frame_id, end_frame_next_frame_id,
      set_reflex_mode_next_frame_id, nvlat_mark_input_sample,
      nvlat_mark_simulation_end, nvlat_mark_render_submit_start,
      nvlat_mark_render_submit_end, nvlat_mark_present_start,
      nvlat_mark_present_end, markWith_next_frame_id, nvlat_reset_metrics]

theorem step_mode_unsupported (c : Context) (e : Event)
    (h : c.supported = false) : (step c e).mode = c.mode := by
  cases e <;>
    simp [step, begin_frame_mode, end_frame_mode,
      set_reflex_mode_unsupported c _ _ h, nvlat_mark_input_sample,
      nvlat_mark_simulation_end, nvlat_mark_render_submit_start,
      nvlat_mark_render_submit_end, nvlat_mark_present_start,
      nvlat_mark_present_end, markWith_mode, nvlat_reset_metrics]

theorem run_supported (es : List Event) :
    ∀ c : Context, (run c es).supported = c.supported := by
  induction es with
  | nil => intro c; simp [run]
  | cons e es ih =>
    intro c
    simpa [run, List.foldl_cons, step_supported] using
      (ih (step c e)).trans (step_supported c e)

theorem run_mode_unsupported (es : List Event) :
    ∀ c : Context, c.supported = false → (run c es).mode = c.mode := by
  induction es with
  | nil => intro c _; simp [run]
  | cons e es ih =>
    intro c h
    have h1 : (step c e).supported = false := (step_supported c e).trans h
    have h2 := ih (step c e) h1
    have h3 := step_mode_unsupported c e h
    simp only [run, List.foldl_cons] at h2 ⊢
    exact h2.trans h3

theorem beginOutputs_eq (es : List Event) :
    ∀ c : Context,
      beginOutputs c es = List.range' c.next_frame_id (countBegins es) := by
  induction es with
  | nil => intro c; simp [beginOutputs, countBegins]
  | cons e es ih =>
    intro c
    cases e <;>
      simp [beginOutputs, countBegins, ih, step_next_frame_id,
        begin_frame_fst, List.range'_succ]

theorem mkTimings_clamp (fs : FrameState) (now : Nat) :
    (mkTimings fs now).simulation_us =
      (match fs.sim_end with
       | none => 0
       | some e => ((e : Int) - (fs.begin_ts : Int)).toNat) ∧
    (mkTimings fs now).render_submit_us =
      (match fs.submit_start, fs.submit_end with
       | some s, some e => ((e : Int) - (s : Int)).toNat
       | _, _ => 0) ∧
    (mkTimings fs now).present_us =
      (match fs.present_start, fs.present_end with
       | some s, some e => ((e : Int) - (s : Int)).toNat
       | _, _ => 0) ∧
    (mkTimings fs now).total_us = ((now : Int) - (fs.begin_ts : Int)).toNat ∧
    (mkTimings fs now).input_latency_us =
      (match fs.input_sample with
       | none => 0
       | some i => ((fs.present_end.getD now : Int) - (i : Int)).toNat) ∧
    (mkTimings fs now).simulation_us ≤ fs.sim_end.getD 0 ∧
    (mkTimings fs now).render_submit_us ≤ fs.submit_end.getD 0 ∧
    (mkTimings fs now).present_us ≤ fs.present_end.getD 0 ∧
    (mkTimings fs now).total_us ≤ now ∧
    (mkTimings fs now).input_latency_us ≤ fs.present_end.getD now := by
  refine ⟨?_, ?_, ?_, ?_, ?_, ?_, ?_, ?_, ?_, ?_⟩
  · cases h : fs.sim_end <;> simp [mkTimings, h, Int.toNat_sub]
  · cases h1 : fs.submit_start <;> cases h2 : fs.submit_end <;>
      simp [mkTimings, h1, h2, Int.toNat_sub]
  · cases h1 : fs.present_start <;> cases h2 : fs.present_end <;>
      simp [mkTimings, h1, h2, Int.toNat_sub]
  · simp [mkTimings, Int.toNat_sub]
  · cases h : fs.input_sample <;> simp [mkTimings, h, Int.toNat_sub]
  · cases h : fs.sim_end <;> simp [mkTimings, h, Nat.sub_le]
  · cases h1 : fs.submit_start <;> cases h2 : fs.submit_end <;>
      simp [mkTimings, h1, h2, Nat.sub_le]
  · cases h1 : fs.present_start <;> cases h2 : fs.present_end <;>
      simp [mkTimings, h1, h2, Nat.sub_le]
  · simp [mkTimings, Nat.sub_le]
  · cases h : fs.input_sample <;> simp [mkTimings, h, Nat.sub_le]

theorem insertDesc_perm (x : Nat) (l : List Nat) :
    List.Perm (insertDesc x l) (x :: l) := by
  induction l with
  | nil => simp [insertDesc]
  | cons y ys ih =>
    by_cases h : y ≤ x
    · simp [insertDesc, h]
    · simp only [insertDesc, if_neg h]
      exact (ih.cons y).trans (List.Perm.swap x y ys)

theorem sortDesc_perm (l : List Nat) : List.Perm (sortDesc l) l := by
  induction l with
  | nil => simp [sortDesc]
  | cons x xs ih =>
    exact (insertDesc_perm x (sortDesc xs)).trans (ih.cons x)

theorem insertDesc_sorted (x : Nat) (l : List Nat)
    (h : List.Sorted (fun a b => b ≤ a) l) :
    List.Sorted (fun a b => b ≤ a) (insertDesc x l) := by
  induction l with
  | nil => simp [insertDesc]
  | cons y ys ih =>
    rw [List.sorted_cons] at h
    by_cases hyx : y ≤ x
    · simp only [insertDesc, if_pos hyx]
      rw [List.sorted_cons]
      refine ⟨?_, ?_⟩
      · intro b hb
        rcases List.mem_cons.mp hb with hb | hb
        · omega
        · exact le_trans (h.1 b hb) hyx
      · rw [List.sorted_cons]; exact h
    · simp only [insertDesc, if_neg hyx]
      rw [List.sorted_cons]
      refine ⟨?_, ih h.2⟩
      intro b hb
      have hmem := (insertDesc_perm x ys).mem_iff.mp hb
      rcases List.mem_cons.mp hmem with hb' | hb'
      · omega
      · exact h.1 b hb'

theorem sortDesc_sorted (l : List Nat) :
    List.Sorted (fun a b => b ≤ a) (sortDesc l) := by
  induction l with
  | nil => simp [sortDesc]
  | cons x xs ih => exact insertDesc_sorted x (sortDesc xs) ih

theorem onePercentCount_eq_ceil (n : Nat) :
    onePercentCount n = max 1 (Nat.ceil ((n : ℚ) / 100)) := by
  rcases Nat.eq_zero_or_pos n with h0 | h0
  · subst h0; simp [onePercentCount]
  · have hq0 : (n + 99) / 100 ≠ 0 := by omega
    have hceil : Nat.ceil ((n : ℚ) / 100) = (n + 99) / 100 := by
      rw [Nat.ceil_eq_iff hq0]
      constructor
      · rw [lt_div_iff₀ (by norm_num : (0 : ℚ) < 100)]
        have h1 : ((n + 99) / 100 - 1) * 100 < n := by omega
        calc (((n + 99) / 100 - 1 : Nat) : ℚ) * 100
            = (((n + 99) / 100 - 1) * 100 : Nat) := by push_cast; ring
          _ < n := by exact_mod_cast h1
      · rw [div_le_iff₀ (by norm_num : (0 : ℚ) < 100)]
        have h2 : n ≤ (n + 99) / 100 * 100 := by omega
        calc (n : ℚ) ≤ (((n + 99) / 100 * 100 : Nat) : ℚ) := by
              exact_mod_cast h2
          _ = (((n + 99) / 100 : Nat) : ℚ) * 100 := by push_cast; ring
    rw [onePercentCount, hceil]

/-- Modelled from the spec: a timings record carrying only a total frame
time, used to feed the aggregator in the worst-1% example (spec
section 8). -/
def recOfTotal (t : Nat) : nvlat_frame_timings_t :=
  { frame_id := 0, simulation_us := 0, render_submit_us := 0
    present_us := 0, total_us := t, input_latency_us := 0 }

/-- Modelled from the spec: the spec's worst-1% example feed — 99 records
with `total_us = 10000` and 1 record with `total_us = 1000000` (spec
section 8). -/
def c3window : List nvlat_frame_timings_t :=
  List.replicate 99 (recOfTotal 10000) ++ [recOfTotal 1000000]

/-- Modelled from the spec: the context after pushing the example feed into
a freshly initialized context's aggregator. -/
def c3ctx : Context :=
  c3window.foldl pushTimings (initialContext true)

/-- Claim C1: for every context produced by init and every trace of API
calls, the `begin_frame` calls of the trace return the frame ids
0, 1, 2, … in order — the n-th `begin_frame` returns n − 1, regardless of
which other calls (marks, end_frame, metrics, reset, mode, sleep) occur
between them, so frame ids are never reused or skipped. -/
theorem claim_C1 (probeOk : Bool) (es : List Event) :
    beginOutputs (initialContext probeOk) es =
      List.range (countBegins es) := by
  rw [beginOutputs_eq es (initialContext probeOk), List.range_eq_range']
  rfl

/-- Claim C2: for every starting context, every begin timestamp, every
order and multiplicity of marking calls and every end timestamp, the
timings record produced by `end_frame` derives each field as the
clamped-at-0 difference of its two endpoint timestamps (`Int.toNat` of the
signed difference), is 0 whenever an optional endpoint is unset, and every
field is bounded by its end timestamp, so no field is ever negative or
wrapped modulo 2^64. -/
theorem claim_C2 (c : Context) (t0 tEnd : Nat) (ms : List Mark) :
    ∃ fs : FrameState,
      (applyMarks (nvlat_begin_frame c t0).2 ms).current = some fs ∧
      (nvlat_end_frame (applyMarks (nvlat_begin_frame c t0).2 ms) tEnd).1 =
        mkTimings fs tEnd ∧
      (mkTimings fs tEnd).simulation_us =
        (match fs.sim_end with
         | none => 0
         | some e => ((e : Int) - (fs.begin_ts : Int)).toNat) ∧
      (mkTimings fs tEnd).render_submit_us =
        (match fs.submit_start, fs.submit_end with
         | some s, some e => ((e : Int) - (s : Int)).toNat
         | _, _ => 0) ∧
      (mkTimings fs tEnd).present_us =
        (match fs.present_start, fs.present_end with
         | some s, some e => ((e : Int) - (s : Int)).toNat
         | _, _ => 0) ∧
      (mkTimings fs tEnd).total_us =
        ((tEnd : Int) - (fs.begin_ts : Int)).toNat ∧
      (mkTimings fs tEnd).input_latency_us =
        (match fs.input_sample with
         | none => 0
         | some i => ((fs.present_end.getD tEnd : Int) - (i : Int)).toNat) ∧
      (mkTimings fs tEnd).simulation_us ≤ fs.sim_end.getD 0 ∧
      (mkTimings fs tEnd).render_submit_us ≤ fs.submit_end.getD 0 ∧
      (mkTimings fs tEnd).present_us ≤ fs.present_end.getD 0 ∧
      (mkTimings fs tEnd).total_us ≤ tEnd ∧
      (mkTimings fs tEnd).input_latency_us ≤ fs.present_end.getD tEnd := by
  have hcur := applyMarks_current ms (nvlat_begin_frame c t0).2
    (freshFrame c.next_frame_id t0) (begin_frame_current c t0)
  refine ⟨ms.foldl markFold (freshFrame c.next_frame_id t0), hcur,
    end_frame_fst _ tEnd _ hcur, ?_⟩
  exact mkTimings_clamp (ms.foldl markFold (freshFrame c.next_frame_id t0))
    tEnd

/-- Claim C6: calling `end_frame` immediately after `begin_frame`, with no
marking calls in between and with time having advanced, yields a timings
record with zero simulation, render-submit, present and input-latency
fields and a strictly positive `total_us`. -/
theorem claim_C6 (c : Context) (t0 tEnd : Nat) (h : t0 < tEnd) :
    (nvlat_end_frame (nvlat_begin_frame c t0).2 tEnd).1.simulation_us = 0 ∧
    (nvlat_end_frame (nvlat_begin_frame c t0).2 tEnd).1.render_submit_us = 0 ∧
    (nvlat_end_frame (nvlat_begin_frame c t0).2 tEnd).1.present_us = 0 ∧
    (nvlat_end_frame (nvlat_begin_frame c t0).2 tEnd).1.input_latency_us = 0 ∧
    0 < (nvlat_end_frame (nvlat_begin_frame c t0).2 tEnd).1.total_us := by
  have hfst := end_frame_fst (nvlat_begin_frame c t0).2 tEnd
    (freshFrame c.next_frame_id t0) (begin_frame_current c t0)
  rw [hfst]
  refine ⟨rfl, rfl, rfl, rfl, ?_⟩
  simp only [mkTimings, freshFrame]
  omega

/-- Claim C3: the 1%-low metric sorts the retained `total_us` values in
descending order (a true sort: a sorted permutation of the window), keeps
the worst `max(1, ceil(0.01 × count))` entries, and converts the mean
`total_us` of that subset to fps. On the spec's example — 99 records with
`total_us = 10000` and one with `total_us = 1000000` — the worst-1% subset
is the single outlier, `avg_frame_time_us` is 19900 and `fps_1_low` is
1. -/
theorem claim_C3 :
    (∀ l : List Nat, List.Perm (sortDesc l) l ∧
      List.Sorted (fun a b => b ≤ a) (sortDesc l)) ∧
    (∀ n : Nat, onePercentCount n = max 1 (Nat.ceil ((n : ℚ) / 100))) ∧
    (nvlat_get_metrics c3ctx).fps_1_low = fpsOf (worstMeanQ c3ctx) ∧
    worstCount c3ctx = 1 ∧
    worstSum c3ctx = 1000000 ∧
    (nvlat_get_metrics c3ctx).avg_frame_time_us = 19900 ∧
    (nvlat_get_metrics c3ctx).fps_1_low = 1 ∧
    (nvlat_get_metrics c3ctx).total_frames = 100 := by
  have hne : ¬((windowTotals c3ctx).length = 0) := by decide
  have hk : worstCount c3ctx = 1 := by decide
  have hws : worstSum c3ctx = 1000000 := by decide
  have hfield : (nvlat_get_metrics c3ctx).fps_1_low = fpsOf (worstMeanQ c3ctx) := by
    simp only [nvlat_get_metrics, if_neg hne]
  refine ⟨fun l => ⟨sortDesc_perm l, sortDesc_sorted l⟩,
    onePercentCount_eq_ceil, hfield, hk, hws, ?_, ?_, ?_⟩
  · have : avgTotal c3ctx = 19900 := by decide
    simp only [nvlat_get_metrics, if_neg hne]
    exact this
  · rw [hfield, worstMeanQ, hk, hws]
    rw [fpsOf]
    norm_num
  · simp only [nvlat_get_metrics, if_neg hne]
    decide

/-- Witness for claim C6 at a concrete input. -/
theorem claim_C6_witness :
    (nvlat_end_frame (nvlat_begin_frame (initialContext true) 0).2
      5).1.simulation_us = 0 ∧
    (nvlat_end_frame (nvlat_begin_frame (initialContext true) 0).2
      5).1.render_submit_us = 0 ∧
    (nvlat_end_frame (nvlat_begin_frame (initialContext true) 0).2
      5).1.present_us = 0 ∧
    (nvlat_end_frame (nvlat_begin_frame (initialContext true) 0).2
      5).1.input_latency_us = 0 ∧
    0 < (nvlat_end_frame (nvlat_begin_frame (initialContext true) 0).2
      5).1.total_us :=
  claim_C6 (initialContext true) 0 5 (by decide)

theorem sleep_snd (c : Context) (sem target : Nat) (vendorOk : Bool) :
    (nvlat_sleep c sem target vendorOk).2 = waitFor sem target := by
  unfold nvlat_sleep
  split
  · rfl
  · split <;> rfl

/-- Claim C4: `set_reflex_mode` on an Unsupported context fails with
NotSupported and leaves the context unchanged; on a supported context it
updates the cached mode to the requested one exactly when the vendor call
succeeds, returns the opaque Unknown error and leaves the context
unchanged when the vendor call fails, and the mode observed by
`get_reflex_mode` changes only on a successful call. -/
theorem claim_C4 (c : Context) (m : nvlat_reflex_mode_t) (vendorOk : Bool) :
    (c.supported = false →
      (nvlat_set_reflex_mode c m vendorOk).1 = NVLAT_ERROR_NOT_SUPPORTED ∧
      (nvlat_set_reflex_mode c m vendorOk).2 = c) ∧
    (c.supported = true → vendorOk = true →
      (nvlat_set_reflex_mode c m vendorOk).1 = NVLAT_SUCCESS ∧
      nvlat_get_reflex_mode (nvlat_set_reflex_mode c m vendorOk).2 = m) ∧
    (c.supported = true → vendorOk = false →
      (nvlat_set_reflex_mode c m vendorOk).1 = NVLAT_ERROR_UNKNOWN ∧
      (nvlat_set_reflex_mode c m vendorOk).2 = c) ∧
    (nvlat_get_reflex_mode (nvlat_set_reflex_mode c m vendorOk).2 ≠
        nvlat_get_reflex_mode c →
      (nvlat_set_reflex_mode c m vendorOk).1 = NVLAT_SUCCESS) := by
  cases hs : c.supported <;> cases vendorOk <;>
    simp [nvlat_set_reflex_mode, nvlat_get_reflex_mode, hs]

/-- Witness for claim C4 at a concrete input. -/
theorem claim_C4_witness :
    ((initialContext true).supported = false →
      (nvlat_set_reflex_mode (initialContext true) NVLAT_REFLEX_BOOST
        true).1 = NVLAT_ERROR_NOT_SUPPORTED ∧
      (nvlat_set_reflex_mode (initialContext true) NVLAT_REFLEX_BOOST
        true).2 = initialContext true) ∧
    ((initialContext true).supported = true → true = true →
      (nvlat_set_reflex_mode (initialContext true) NVLAT_REFLEX_BOOST
        true).1 = NVLAT_SUCCESS ∧
      nvlat_get_reflex_mode (nvlat_set_reflex_mode (initialContext true)
        NVLAT_REFLEX_BOOST true).2 = NVLAT_REFLEX_BOOST) ∧
    ((initialContext true).supported = true → true = false →
      (nvlat_set_reflex_mode (initialContext true) NVLAT_REFLEX_BOOST
        true).1 = NVLAT_ERROR_UNKNOWN ∧
      (nvlat_set_reflex_mode (initialContext true) NVLAT_REFLEX_BOOST
        true).2 = initialContext true) ∧
    (nvlat_get_reflex_mode (nvlat_set_reflex_mode (initialContext true)
        NVLAT_REFLEX_BOOST true).2 ≠
      nvlat_get_reflex_mode (initialContext true) →
      (nvlat_set_reflex_mode (initialContext true) NVLAT_REFLEX_BOOST
        true).1 = NVLAT_SUCCESS) :=
  claim_C4 (initialContext true) NVLAT_REFLEX_BOOST true

/-- Claim C5: on every return of `sleep` — success or failure, any context,
mode, primitive value and target — the counting wait primitive has reached
at least the target value; on an Unsupported context or in Off mode the
call degrades to a direct wait on the primitive and returns success. -/
theorem claim_C5 (c : Context) (sem target : Nat) (vendorOk : Bool) :
    target ≤ (nvlat_sleep c sem target vendorOk).2 ∧
    (c.supported = false ∨ c.mode = NVLAT_REFLEX_OFF →
      nvlat_sleep c sem target vendorOk =
        (NVLAT_SUCCESS, waitFor sem target)) := by
  constructor
  · rw [sleep_snd]
    exact Nat.le_max_right sem target
  · intro h
    simp only [nvlat_sleep, if_pos h]

/-- Witness for claim C5 at a concrete input. -/
theorem claim_C5_witness :
    7 ≤ (nvlat_sleep (initialContext false) 3 7 false).2 ∧
    ((initialContext false).supported = false ∨
        (initialContext false).mode = NVLAT_REFLEX_OFF →
      nvlat_sleep (initialContext false) 3 7 false =
        (NVLAT_SUCCESS, waitFor 3 7)) :=
  claim_C5 (initialContext false) 3 7 false

/-- Claim C7: `reset_metrics` clears the window and zeroes `total_frames`,
so an immediately following `get_metrics` reports zero total frames and
all aggregate fields zero, while the frame-id counter is untouched: the
next `begin_frame` returns the same id it would have returned without the
reset. -/
theorem claim_C7 (c : Context) (now : Nat) :
    nvlat_get_metrics (nvlat_reset_metrics c) =
      { total_frames := 0, avg_frame_time_us := 0, avg_fps := 0
        fps_1_low := 0, avg_input_latency_us := 0 } ∧
    (nvlat_reset_metrics c).next_frame_id = c.next_frame_id ∧
    (nvlat_begin_frame (nvlat_reset_metrics c) now).1 =
      (nvlat_begin_frame c now).1 := by
  refine ⟨rfl, ?_, ?_⟩
  · simp [nvlat_reset_metrics]
  · rw [begin_frame_fst, begin_frame_fst]
    simp [nvlat_reset_metrics]

/-- Claim C8: init consumes exactly one probe outcome from the pacing
probe; with a failed probe it still returns a valid context, whose
Unsupported state is permanent across every subsequent trace of API
calls; init itself fails only on allocation failure. -/
theorem claim_C8 (p : Bool) (rest : List Bool) (allocOk : Bool)
    (es : List Event) :
    (nvlat_init (p :: rest) allocOk).2 = rest ∧
    (allocOk = true →
      (nvlat_init (p :: rest) allocOk).1 = some (initialContext p)) ∧
    (allocOk = false → (nvlat_init (p :: rest) allocOk).1 = none) ∧
    nvlat_is_supported (initialContext false) = false ∧
    nvlat_is_supported (run (initialContext false) es) = false := by
  refine ⟨rfl, ?_, ?_, rfl, ?_⟩
  · intro h; subst h; simp [nvlat_init]
  · intro h; subst h; simp [nvlat_init]
  · simpa [nvlat_is_supported, initialContext] using
      run_supported es (initialContext false)

/-- Witness for claim C8 at a concrete input. -/
theorem claim_C8_witness :
    (nvlat_init [false] true).2 = [] ∧
    (true = true →
      (nvlat_init [false] true).1 = some (initialContext false)) ∧
    (true = false → (nvlat_init [false] true).1 = none) ∧
    nvlat_is_supported (initialContext false) = false ∧
    nvlat_is_supported
      (run (initialContext false) [Event.ev_get_metrics]) = false :=
  claim_C8 false [] true [Event.ev_get_metrics]

/-- Claim C9: no operation crashes on an invalid or destroyed handle: the
marking calls (begin_frame included), end_frame, get_metrics,
reset_metrics and destroy silently no-op, while set_reflex_mode and sleep
return the InvalidHandle error code and change nothing. -/
theorem claim_C9 (now sem target : Nat) (m : nvlat_reflex_mode_t)
    (vendorOk : Bool) :
    (h_begin_frame none now).2 = none ∧
    h_mark_input_sample none now = none ∧
    h_mark_simulation_end none now = none ∧
    h_mark_render_submit_start none now = none ∧
    h_mark_render_submit_end none now = none ∧
    h_mark_present_start none now = none ∧
    h_mark_present_end none now = none ∧
    h_end_frame none now = (none, none) ∧
    h_get_metrics none = (none, none) ∧
    h_reset_metrics none = none ∧
    h_destroy none = none ∧
    (h_set_reflex_mode none m vendorOk).1 = NVLAT_ERROR_INVALID_HANDLE ∧
    (h_set_reflex_mode none m vendorOk).2 = none ∧
    h_sleep none sem target vendorOk = (NVLAT_ERROR_INVALID_HANDLE, sem) :=
  ⟨rfl, rfl, rfl, rfl, rfl, rfl, rfl, rfl, rfl, rfl, rfl, rfl, rfl, rfl⟩

/-- Claim C10: `get_reflex_mode` always returns one of the three public
values Off/On/Boost; a context whose probe failed reports the default Off
after every trace of API calls while `is_supported` stays false, and only
`is_supported` — not `get_reflex_mode` — distinguishes such a context from
a supported context left in Off mode. -/
theorem claim_C10 (c : Context) (es : List Event) :
    (nvlat_get_reflex_mode c = NVLAT_REFLEX_OFF ∨
      nvlat_get_reflex_mode c = NVLAT_REFLEX_ON ∨
      nvlat_get_reflex_mode c = NVLAT_REFLEX_BOOST) ∧
    nvlat_get_reflex_mode (run (initialContext false) es) =
      NVLAT_REFLEX_OFF ∧
    nvlat_is_supported (run (initialContext false) es) = false ∧
    nvlat_get_reflex_mode (initialContext false) =
      nvlat_get_reflex_mode (initialContext true) ∧
    nvlat_is_supported (initialContext false) ≠
      nvlat_is_supported (initialContext true) := by
  refine ⟨?_, ?_, ?_, rfl, by decide⟩
  · cases h : c.mode <;> simp [nvlat_get_reflex_mode, h]
  · simpa [nvlat_get_reflex_mode, initialContext] using
      run_mode_unsupported es (initialContext false) rfl
  · simpa [nvlat_is_supported] using run_supported es (initialContext false)

/-- Witness for claim C10 at a concrete input. -/
theorem claim_C10_witness :
    (nvlat_get_reflex_mode (initialContext true) = NVLAT_REFLEX_OFF ∨
      nvlat_get_reflex_mode (initialContext true) = NVLAT_REFLEX_ON ∨
      nvlat_get_reflex_mode (initialContext true) = NVLAT_REFLEX_BOOST) ∧
    nvlat_get_reflex_mode
      (run (initialContext false) [Event.ev_begin_frame 0]) =
      NVLAT_REFLEX_OFF ∧
    nvlat_is_supported
      (run (initialContext false) [Event.ev_begin_frame 0]) = false ∧
    nvlat_get_reflex_mode (initialContext false) =
      nvlat_get_reflex_mode (initialContext true) ∧
    nvlat_is_supported (initialContext false) ≠
      nvlat_is_supported (initialContext true) :=
  claim_C10 (initialContext true) [Event.ev_begin_frame 0]

end Nvlat
